import Mathlib

/-!
# Verification of the gotest-watch event-orchestration core

A shallow embedding, in Lean 4, of the parts of the `mikowitz/gotest-watch`
repository that the frozen claims speak about:

* the shared `TestConfig` record and its `BuildCommand` / `Clear` operations
  (`internal/test_config.go`),
* the command handlers and the command registry
  (`internal/command_handlers.go`, `internal/command_registry.go`),
* the stdin line parser and channel routing (`internal/stdin_reader.go`),
* the debounced file watcher (`file_watcher.go`),
* the cancellable test runner with its two stream drains (`RunTests` and
  `streamOutput`),
* the dispatcher state machine, in its two embedded generations: the
  idle/running loop of `dispatcher.go`, and the gate-channel (`readyChan`)
  variant.

Go strings are modelled as `List Char` (`GoStr`), Go `int` as `Int`,
channels as explicit message lists processed by step functions, and
goroutine side effects (prints, runner spawns, gate sends) as effect
traces returned by those step functions.
-/

/-- Go strings, modelled as lists of characters. -/
abbrev GoStr := List Char

/-- ASCII whitespace recognized by Go's `unicode.IsSpace` (the inputs the
program splits are ASCII command lines; the non-ASCII space code points of
`unicode.IsSpace` do not occur in them). Used by `strings.Fields` and
`strings.TrimSpace`. -/
def isGoSpace (c : Char) : Bool :=
  c = ' ' || c = '\t' || c = '\n' || c = '\x0d' || c = '\x0b' || c = '\x0c'

/-- Accumulator pass behind `fieldsChars`: `acc` holds the characters of the
current field in reverse. -/
def fieldsAux : GoStr → GoStr → List GoStr
  | [], acc => if acc = [] then [] else [acc.reverse]
  | c :: cs, acc =>
    if isGoSpace c then
      if acc = [] then fieldsAux cs [] else acc.reverse :: fieldsAux cs []
    else fieldsAux cs (c :: acc)

/-- `strings.Fields`: split around runs of whitespace, dropping empty fields. -/
def fieldsChars (s : GoStr) : List GoStr := fieldsAux s []

/-- `strings.Join(ws, " ")`. -/
def joinSpace : List GoStr → GoStr
  | [] => []
  | [w] => w
  | w :: ws => w ++ ' ' :: joinSpace ws

/-- Digit loop behind `natToDigits`; the fuel only bounds the recursion and
exceeds the digit count. -/
def natDigitsAux : Nat → Nat → GoStr → GoStr
  | 0, _, acc => acc
  | fuel + 1, n, acc =>
    if n < 10 then Char.ofNat (48 + n) :: acc
    else natDigitsAux fuel (n / 10) (Char.ofNat (48 + n % 10) :: acc)

/-- Decimal digits of a natural number, most significant first
(`strconv.Itoa` on non-negative values). -/
def natToDigits (n : Nat) : GoStr := natDigitsAux (n + 1) n []

/-- `strconv.Itoa`. -/
def intToDigits (i : Int) : GoStr :=
  if i < 0 then '-' :: natToDigits (-i).toNat else natToDigits i.toNat

/-- The shared mutable configuration record (`TestConfig` in
`internal/test_config.go`). The `sync.RWMutex` only serializes access and
carries no data, so it has no counterpart here. -/
structure TestConfig where
  TestPath : GoStr
  Verbose : Bool
  RunPattern : GoStr
  SkipPattern : GoStr
  CommandBase : List GoStr
  Race : Bool
  FailFast : Bool
  Count : Int
  ClearScreen : Bool
  Cover : Bool
  /-- Optional: if set, tests run in this directory. -/
  WorkingDir : GoStr
  /-- Colorized output toggle. The accessors `GetColor`/`SetColor` are called
  by `RunTests` and by the CLI layer; the snapshot of `test_config.go` among
  the sources predates the field, so it is carried here per those callers and
  the spec's data model (spec 3: boolean toggles include `color`). -/
  Color : Bool
deriving DecidableEq, Repr

/-- `NewTestConfig()`: defaults. Zero values for every field not set
explicitly, `./...` as test path and `go test` as command base. -/
def NewTestConfig : TestConfig where
  TestPath := "./...".data
  Verbose := false
  RunPattern := []
  SkipPattern := []
  CommandBase := ["go".data, "test".data]
  Race := false
  FailFast := false
  Count := 0
  ClearScreen := false
  Cover := false
  WorkingDir := []
  Color := false

/-- `TestConfig.BuildCommand`: base command joined with spaces, then the test
path, then each enabled flag, then `-count=` when positive, then `-run=` and
`-skip=` when non-empty, appended in the source's order. -/
def TestConfig.BuildCommand (tc : TestConfig) : GoStr :=
  joinSpace tc.CommandBase
    ++ " ".data
    ++ tc.TestPath
    ++ (if tc.Verbose then " -v".data else [])
    ++ (if tc.Race then " -race".data else [])
    ++ (if tc.FailFast then " -failfast".data else [])
    ++ (if tc.Cover then " -cover".data else [])
    ++ (if 0 < tc.Count then " -count=".data ++ intToDigits tc.Count else [])
    ++ (if tc.RunPattern ≠ [] then " -run=".data ++ tc.RunPattern else [])
    ++ (if tc.SkipPattern ≠ [] then " -skip=".data ++ tc.SkipPattern else [])

/-- `TestConfig.Clear`: reset the run parameters to their defaults. The
source resets exactly `TestPath`, `Verbose`, `RunPattern`, `SkipPattern`,
`CommandBase`, `Race`, `FailFast`, `Count` and `Cover`; it does not touch
`ClearScreen`, `WorkingDir` or `Color`. -/
def TestConfig.Clear (tc : TestConfig) : TestConfig :=
  { tc with
    TestPath := "./...".data
    Verbose := false
    RunPattern := []
    SkipPattern := []
    CommandBase := ["go".data, "test".data]
    Race := false
    FailFast := false
    Count := 0
    Cover := false }

/-! ## Stdin reader: parsing and channel routing (`internal/stdin_reader.go`) -/

/-- `strings.TrimSpace`. -/
def trimSpace (s : GoStr) : GoStr :=
  ((s.dropWhile isGoSpace).reverse.dropWhile isGoSpace).reverse

/-- The interactive command names (`Command` constants in
`internal/stdin_reader.go`). -/
def VerboseCmd : GoStr := "v".data

/-- `SetPathCmd`. -/
def SetPathCmd : GoStr := "p".data

/-- `SetPatternCmd`. -/
def SetPatternCmd : GoStr := "r".data

/-- `SetSkipCmd`. -/
def SetSkipCmd : GoStr := "s".data

/-- `HelpCmd`. The sources define it as the single letter `h`. -/
def HelpCmd : GoStr := "h".data

/-- `ClearCmd`. -/
def ClearCmd : GoStr := "clear".data

/-- `ClearScreenCmd`. -/
def ClearScreenCmd : GoStr := "cls".data

/-- `ForceRunCmd`. -/
def ForceRunCmd : GoStr := "f".data

/-- Modelled from the spec: `RaceCmd` is referenced by the registry in
`internal/command_registry.go` but its defining constant is missing from the
source snapshot; the README and in-code help text name the command `race`. -/
def RaceCmd : GoStr := "race".data

/-- Modelled from the spec: `FailFastCmd` is referenced by the registry but
its defining constant is missing from the source snapshot; the README and
help text name the command `ff`. -/
def FailFastCmd : GoStr := "ff".data

/-- Modelled from the spec: `SetCommandBaseCmd` is referenced by the registry
but its defining constant is missing from the source snapshot; the README and
help text name the command `cmd`. -/
def SetCommandBaseCmd : GoStr := "cmd".data

/-- Modelled from the spec: the `count` command. `handleCount` is in the
sources and the README and help text document `count <n>`, but the constant
and its registry entry are missing from the source snapshot. -/
def CountCmd : GoStr := "count".data

/-- `parseCommand`: trim, split on whitespace; first token is the command,
the rest are the arguments; empty input gives the empty command. -/
def parseCommand (input : GoStr) : GoStr × List GoStr :=
  match fieldsChars (trimSpace input) with
  | [] => ([], [])
  | c :: args => (c, args)

/-- Where `ReadStdin` sends a parsed line: the dedicated help channel or the
general command channel. -/
inductive Routed
  | help
  | cmdMsg (c : GoStr) (args : List GoStr)
deriving DecidableEq, Repr

/-- The per-line routing of `ReadStdin`: an empty line produces no message;
a line whose command is `HelpCmd` goes to the help channel; every other line
goes to the command channel. -/
def readStdinRoute (line : GoStr) : Option Routed :=
  let (c, args) := parseCommand line
  if c = [] then none
  else if c = HelpCmd then some Routed.help
  else some (Routed.cmdMsg c args)

/-! ## `strconv.Atoi` (used by `handleCount`) -/

/-- Digit run to a number; `none` when empty or a non-digit occurs. -/
def digitsToNat : GoStr → Option Nat
  | [] => none
  | ds => ds.foldl (fun acc c =>
      acc.bind (fun n => if c.isDigit then some (n * 10 + (c.toNat - 48)) else none))
      (some 0)

/-- `strconv.Atoi`: optional sign then decimal digits. (Go additionally
range-checks against the machine `int`; the inputs at issue are small.) -/
def goAtoi (s : GoStr) : Option Int :=
  match s with
  | [] => none
  | c :: rest =>
    if c = '-' then (digitsToNat rest).map (fun n => -(n : Int))
    else if c = '+' then (digitsToNat rest).map (fun n => (n : Int))
    else (digitsToNat (c :: rest)).map (fun n => (n : Int))

/-! ## File watcher (`file_watcher.go`) -/

/-- `fsnotify.Op` bit values. -/
def opCreate : Nat := 1

/-- `fsnotify.Write`. -/
def opWrite : Nat := 2

/-- `fsnotify.Remove`. -/
def opRemove : Nat := 4

/-- `fsnotify.Rename`. -/
def opRename : Nat := 8

/-- `fsnotify.Chmod`. -/
def opChmod : Nat := 16

/-- A low-level filesystem event (`fsnotify.Event`): a path and an operation
bitmask. -/
structure FsEvent where
  Name : GoStr
  Op : Nat
deriving DecidableEq, Repr

/-- `event.Has(op)`: bitmask test. -/
def FsEvent.Has (e : FsEvent) (op : Nat) : Bool := e.Op &&& op ≠ 0

/-- `isTrackedChangeEvent`: create, remove, write or rename. -/
def isTrackedChangeEvent (e : FsEvent) : Bool :=
  e.Has opCreate || e.Has opRemove || e.Has opWrite || e.Has opRename

/-- `filepath.Ext` on the reversed character list: collect until the final
dot of the final path element; empty when a separator comes first. -/
def extRevAux : GoStr → GoStr → GoStr
  | [], _ => []
  | c :: rest, acc =>
    if c = '.' then '.' :: acc
    else if c = '/' then []
    else extRevAux rest (c :: acc)

/-- `filepath.Ext`. -/
def filepathExt (s : GoStr) : GoStr := extRevAux s.reverse []

/-- `isGoFile` / the watcher's extension test: `filepath.Ext(name) == ".go"`. -/
def isGoFile (name : GoStr) : Bool := filepathExt name = ".go".data

/-- The event filter of `watchFiles`: only tracked kinds of events on `.go`
files are forwarded to the debounce channel. -/
def watchFilter (e : FsEvent) : Bool := isTrackedChangeEvent e && isGoFile e.Name

/-- The watcher's quiet period: `debounceLoop` is started with
`200*time.Millisecond`. -/
def quietPeriodMs : Nat := 200

/-- One burst step of `debounceLoop`: the timer deadline is `deadline`; an
event arriving before it resets the timer (`timer.Reset(interval)`), and when
no event preempts the deadline the timer fires and the callback emits one
signal. The signal times are returned in order. -/
def debounceAux (interval : Nat) (deadline : Nat) : List Nat → List Nat
  | [] => [deadline]
  | t :: ts =>
    if t < deadline then debounceAux interval (t + interval) ts
    else deadline :: debounceAux interval (t + interval) ts

/-- `debounceLoop` over a time-stamped input sequence (times ascending): no
signal before the first event (the initial timer fire is drained before the
loop), then `debounceAux`. -/
def debounceSignals (interval : Nat) : List Nat → List Nat
  | [] => []
  | t :: ts => debounceAux interval (t + interval) ts

/-- The watcher pipeline of `watchFiles`: filter the raw time-stamped events,
forward the qualifying ones to the debounce loop, return the signal times. -/
def watchSignals (raw : List (Nat × FsEvent)) : List Nat :=
  debounceSignals quietPeriodMs ((raw.filter (fun p => watchFilter p.2)).map (fun p => p.1))

/-- A time-stamp sequence is a single burst for interval `i`: ascending, with
every inter-arrival gap strictly smaller than `i`. The head `t` is the first
event's time. -/
def burstGaps (i : Nat) : Nat → List Nat → Bool
  | _, [] => true
  | t, t2 :: ts => (decide (t ≤ t2) && decide (t2 - t < i)) && burstGaps i t2 ts

/-! ## Command handlers (`internal/command_handlers.go`) -/

/-- The filesystem as seen by `os.Stat` in `handleTestPath`: `none` when the
path does not exist, otherwise whether it is a directory. -/
abbrev FileSys := GoStr → Option Bool

/-- A handler invocation's result: the updated configuration, the lines the
handler printed to standard output, and the returned error (or `none`). -/
structure HandlerResult where
  config : TestConfig
  outs : List GoStr
  err : Option GoStr
deriving DecidableEq, Repr

/-- Go's `%q` on the command-line tokens at issue (no escapes needed). -/
def goQuote (s : GoStr) : GoStr := '"' :: (s ++ ['"'])

/-- `handleVerbose`. -/
def handleVerbose (_ : FileSys) (config : TestConfig) (_ : List GoStr) : HandlerResult :=
  let config := { config with Verbose := !config.Verbose }
  { config := config
    outs := [if config.Verbose then "Verbose: enabled".data else "Verbose: disabled".data]
    err := none }

/-- `handleRace`. -/
def handleRace (_ : FileSys) (config : TestConfig) (_ : List GoStr) : HandlerResult :=
  let config := { config with Race := !config.Race }
  { config := config
    outs := [if config.Race then "Race: enabled".data else "Race: disabled".data]
    err := none }

/-- `handleFailFast`. -/
def handleFailFast (_ : FileSys) (config : TestConfig) (_ : List GoStr) : HandlerResult :=
  let config := { config with FailFast := !config.FailFast }
  { config := config
    outs := [if config.FailFast then "FailFast: enabled".data else "FailFast: disabled".data]
    err := none }

/-- `handleCount`: no argument clears the count; a non-integer or negative
argument prints an error line to standard output and returns `nil` with the
configuration untouched; otherwise the count is set. -/
def handleCount (_ : FileSys) (config : TestConfig) (args : List GoStr) : HandlerResult :=
  match args with
  | [] => { config := { config with Count := 0 }, outs := ["Count: cleared".data], err := none }
  | countStr :: _ =>
    match goAtoi countStr with
    | none =>
      { config := config
        outs := [("Error: invalid count value ").data ++ goQuote countStr
          ++ (" (must be a non-negative integer)").data]
        err := none }
    | some count =>
      if count < 0 then
        { config := config
          outs := [("Error: count value must be non-negative (got ").data
            ++ intToDigits count ++ (")").data]
          err := none }
      else
        { config := { config with Count := count }
          outs := [if count = 0 then "Count: cleared".data
            else ("Count: ").data ++ intToDigits count]
          err := none }

/-- `handleClear`. -/
def handleClear (_ : FileSys) (config : TestConfig) (_ : List GoStr) : HandlerResult :=
  { config := config.Clear, outs := ["All parameters cleared".data], err := none }

/-- `handleRunPattern`. -/
def handleRunPattern (_ : FileSys) (config : TestConfig) (args : List GoStr) : HandlerResult :=
  match args with
  | [] =>
    { config := { config with RunPattern := [] }
      outs := ["Run pattern: cleared".data], err := none }
  | pattern :: _ =>
    { config := { config with RunPattern := pattern }
      outs := [("Run pattern: ").data ++ pattern], err := none }

/-- `handleSkipPattern`. -/
def handleSkipPattern (_ : FileSys) (config : TestConfig) (args : List GoStr) : HandlerResult :=
  match args with
  | [] =>
    { config := { config with SkipPattern := [] }
      outs := ["Skip pattern: cleared".data], err := none }
  | pattern :: _ =>
    { config := { config with SkipPattern := pattern }
      outs := [("Skip pattern: ").data ++ pattern], err := none }

/-- `handleTestPath`: with no argument reset to `./...`; with an argument,
`os.Stat` failure or a non-directory returns an error and leaves the
configuration unchanged. -/
def handleTestPath (fs : FileSys) (config : TestConfig) (args : List GoStr) : HandlerResult :=
  match args with
  | [] =>
    { config := { config with TestPath := "./...".data }
      outs := [("Test path: ./...").data], err := none }
  | path :: _ =>
    match fs path with
    | none =>
      { config := config, outs := []
        err := some (("path does not exist: stat error").data) }
    | some isDir =>
      if isDir then
        { config := { config with TestPath := path }
          outs := [("Test path: ").data ++ path], err := none }
      else
        { config := config, outs := []
          err := some (("path ").data ++ goQuote path ++ (" is not a directory").data) }

/-- `handleCls`: print the clear-screen escape sequence. -/
def handleCls (_ : FileSys) (config : TestConfig) (_ : List GoStr) : HandlerResult :=
  { config := config, outs := ["\x1b[H\x1b[2J".data], err := none }

/-- `handleForceRun`: a no-op; the dispatcher special-cases the spawn. -/
def handleForceRun (_ : FileSys) (config : TestConfig) (_ : List GoStr) : HandlerResult :=
  { config := config, outs := [], err := none }

/-- `handleCommandBase`. -/
def handleCommandBase (_ : FileSys) (config : TestConfig) (args : List GoStr) : HandlerResult :=
  let cmdBase := match args with
    | [] => ["go".data, "test".data]
    | _ => args
  { config := { config with CommandBase := cmdBase }
    outs := [("Test command: ").data ++ joinSpace cmdBase], err := none }

/-- `handleHelp`: print the command catalog; never errs, never mutates. -/
def handleHelp (_ : FileSys) (config : TestConfig) (_ : List GoStr) : HandlerResult :=
  { config := config
    outs :=
      [ "Available commands:".data
      , "  v            Toggle verbose mode (-v flag)".data
      , "  race         Toggle race mode (-race flag)".data
      , "  ff           Toggle failfast mode (-failfast flag)".data
      , "  count <n>    Set test count (-count=<n>, n > 0)".data
      , "  count        Clear count".data
      , "  r <pattern>  Set test run pattern (-run=<pattern>)".data
      , "  r            Clear run pattern".data
      , "  s <pattern>  Set test skip pattern (-skip=<pattern>)".data
      , "  s            Clear skip pattern".data
      , "  p <path>     Set test path (default: ./...".data
      , "  p            Set test path to default (./...)".data
      , "  cmd          Set the base command to run (default: go test)".data
      , "  clear        Clear all parameters".data
      , "  cls          Clear screen".data
      , "  f            Force test run".data
      , "  h            Show this help".data ]
    err := none }

/-- The handler registry (`initRegistry` in `internal/command_registry.go`),
as a lookup function. The `CountCmd ↦ handleCount` entry is modelled from the
spec: the README and help text document the `count` command and `handleCount`
is in the sources, but the registration line is missing from the registry
snapshot. -/
def commandRegistry (c : GoStr) : Option (FileSys → TestConfig → List GoStr → HandlerResult) :=
  if c = VerboseCmd then some handleVerbose
  else if c = HelpCmd then some handleHelp
  else if c = ClearCmd then some handleClear
  else if c = SetPatternCmd then some handleRunPattern
  else if c = SetSkipCmd then some handleSkipPattern
  else if c = SetPathCmd then some handleTestPath
  else if c = ClearScreenCmd then some handleCls
  else if c = ForceRunCmd then some handleForceRun
  else if c = SetCommandBaseCmd then some handleCommandBase
  else if c = RaceCmd then some handleRace
  else if c = FailFastCmd then some handleFailFast
  else if c = CountCmd then some handleCount
  else none

/-- `handleCommand`: registry lookup; an unknown command returns an error and
leaves the configuration unchanged. -/
def handleCommand (fs : FileSys) (c : GoStr) (config : TestConfig) (args : List GoStr) :
    HandlerResult :=
  match commandRegistry c with
  | none =>
    { config := config, outs := []
      err := some (("unknown command: ").data ++ goQuote c) }
  | some handler => handler fs config args

/-! ## Dispatcher, idle/running generation (`dispatcher.go`) -/

/-- The dispatcher's observable side effects: a line (or prompt) on standard
output, a line on standard error, spawning a runner goroutine
(`go runTests(...)`), and a send on the gate (`readyChan`) channel (used only
by the gate-channel dispatcher generation). -/
inductive Eff
  | out (s : GoStr)
  | errOut (s : GoStr)
  | spawn
  | gate (b : Bool)
deriving DecidableEq, Repr

/-- Spawn recognizer. -/
def Eff.isSpawn : Eff → Bool
  | .spawn => true
  | _ => false

/-- Number of runner spawns in an effect list. -/
def spawnCount (effs : List Eff) : Nat := effs.countP Eff.isSpawn

/-- The messages the dispatcher selects over. Context cancellation ends the
loop and is outside the claims settled here. -/
inductive DMsg
  | fileChange
  | command (c : GoStr) (args : List GoStr)
  | help
  | testComplete
deriving DecidableEq, Repr

/-- The dispatcher's own state: the `testRunning` flag plus the configuration
record it owns a pointer to. -/
structure DispState where
  testRunning : Bool
  config : TestConfig
deriving DecidableEq, Repr

/-- The `"> "` prompt print. -/
def promptEff : Eff := Eff.out ("> ".data)

/-- Effects of one handler invocation as the dispatcher surfaces them: the
handler's stdout lines, then `Error: ...` on standard error when the handler
returned an error. -/
def effsOfResult (r : HandlerResult) : List Eff :=
  (r.outs.map Eff.out) ++
    (match r.err with
     | some e => [Eff.errOut (("Error: ").data ++ e)]
     | none => [])

/-- One iteration of the `dispatcher` loop in `dispatcher.go`. While a test
is running, file changes, commands and help requests are received and
ignored; only test completion changes the state. While idle, a file change
spawns a runner, a command runs its handler (spawning only for
`ForceRunCmd`), and help runs the help handler. The idle `select` has no
`testCompleteChan` case, so a completion message is not consumed while idle:
that case is a no-op here. -/
def dispatcherStep (fs : FileSys) (s : DispState) (m : DMsg) : DispState × List Eff :=
  match s.testRunning, m with
  | true, .testComplete => ({ s with testRunning := false }, [promptEff])
  | true, _ => (s, [])
  | false, .fileChange =>
    ({ s with testRunning := true },
      [Eff.out ("\nFile change detected, running tests...".data), Eff.spawn])
  | false, .command c args =>
    let r := handleCommand fs c s.config args
    if c = ForceRunCmd then
      ({ testRunning := true, config := r.config }, effsOfResult r ++ [Eff.spawn])
    else
      ({ s with config := r.config }, effsOfResult r ++ [promptEff])
  | false, .help =>
    (s, effsOfResult (handleHelp fs s.config []) ++ [promptEff])
  | false, .testComplete => (s, [])

/-- Run the dispatcher over a message sequence, accumulating effects. -/
def runDisp (fs : FileSys) : DispState → List DMsg → DispState × List Eff
  | s, [] => (s, [])
  | s, m :: ms =>
    let p := dispatcherStep fs s m
    let q := runDisp fs p.1 ms
    (q.1, p.2 ++ q.2)

/-- Run the dispatcher while tracking the number of runs in flight: spawns
increment it; a completion consumed while running decrements it (each spawned
runner sends exactly one completion). -/
def inFlightRun (fs : FileSys) : DispState × Nat → List DMsg → DispState × Nat
  | p, [] => p
  | (s, n), m :: ms =>
    let q := dispatcherStep fs s m
    inFlightRun fs
      (q.1, n + spawnCount q.2 - (if s.testRunning ∧ m = DMsg.testComplete then 1 else 0)) ms

/-- The trivial filesystem: nothing exists (used for concrete witnesses). -/
def fsEmpty : FileSys := fun _ => none

/-- A filesystem on which every path is an existing regular file (used for
concrete witnesses of the non-directory error path). -/
def fsFileOnly : FileSys := fun _ => some false

/-! ## Dispatcher, gate-channel generation (the `readyChan` variant) -/

/-- Does a message spawn a runner when it arrives while idle? A file change
does; a command does exactly when it is the force-run command. -/
def isRunTrigger : DMsg → Bool
  | .fileChange => true
  | .command c _ => c = ForceRunCmd
  | _ => false

/-- One iteration of the gate-channel dispatcher. Every channel is selected
in every state; `testRunning` only guards the spawn. A spawn sends
gate-closed (`readyChan <- false`) and completion sends gate-open
(`readyChan <- true`) followed by a blank line and the prompt. Command
handlers run in either state in this generation. -/
def dispatcherGateStep (fs : FileSys) (s : DispState) (m : DMsg) : DispState × List Eff :=
  match s.testRunning, m with
  | true, .fileChange => (s, [])
  | false, .fileChange => ({ s with testRunning := true }, [Eff.gate false, Eff.spawn])
  | running, .command c args =>
    let r := handleCommand fs c s.config args
    if running = false ∧ c = ForceRunCmd then
      ({ testRunning := true, config := r.config },
        effsOfResult r ++ [Eff.gate false, Eff.spawn])
    else
      ({ s with config := r.config }, effsOfResult r)
  | _, .help =>
    (s, effsOfResult (handleHelp fs s.config []))
  | _, .testComplete =>
    ({ s with testRunning := false }, [Eff.gate true, Eff.out ("\n".data), promptEff])

/-- The effects the gate-channel dispatcher emits before entering its loop:
`readyChan <- true` and the initial prompt. -/
def gateInitEffs : List Eff := [Eff.gate true, promptEff]

/-- Run the gate-channel dispatcher loop over a message sequence. -/
def runGate (fs : FileSys) : DispState → List DMsg → DispState × List Eff
  | s, [] => (s, [])
  | s, m :: ms =>
    let p := dispatcherGateStep fs s m
    let q := runGate fs p.1 ms
    (q.1, p.2 ++ q.2)

/-- A whole execution of the gate-channel dispatcher from its start: the
pre-loop effects followed by the loop's effects. -/
def gateExec (cfg : TestConfig) (fs : FileSys) (msgs : List DMsg) : List Eff :=
  gateInitEffs ++ (runGate fs { testRunning := false, config := cfg } msgs).2

/-- Gate-open recognizer. -/
def Eff.isGateOpen : Eff → Bool
  | .gate true => true
  | _ => false

/-! ## Gated line reader

Modelled from the spec: the gated `readStdin` (the generation taking
`readyChan`) is called with a gate channel by the sources but its definition
is missing from the snapshot; `internal/stdin_reader.go` holds only the
ungated generation. Spec 4.2: the reader keeps one boolean gate state,
initialized closed; before consuming each line it non-blockingly adopts a
newer gate value; while the gate is closed it waits for the gate to open and
makes no read attempt. -/
structure ReaderState where
  gate : Bool
deriving DecidableEq, Repr

/-- What can wake the gated reader: a new gate value, or input becoming
available. -/
inductive RInput
  | gateVal (b : Bool)
  | lineReady (s : GoStr)
deriving DecidableEq, Repr

/-- The gated reader's observable actions: reading (and routing) a line, or
blocking on the gate instead. -/
inductive RAct
  | readLine (r : Option Routed)
  | waitGate
deriving DecidableEq, Repr

/-- Read-attempt recognizer. -/
def RAct.isRead : RAct → Bool
  | .readLine _ => true
  | _ => false

/-- Modelled from the spec: one step of the gated reader (see the section
comment). A gate value is adopted; an available line is read and routed only
while the gate is open, otherwise the reader waits on the gate. -/
def readerStep (rs : ReaderState) (i : RInput) : ReaderState × List RAct :=
  match i with
  | .gateVal b => ({ gate := b }, [])
  | .lineReady s =>
    if rs.gate then (rs, [RAct.readLine (readStdinRoute s)])
    else (rs, [RAct.waitGate])

/-- Modelled from the spec: the reader's gate starts closed. -/
def readerInit : ReaderState := { gate := false }

/-! ## Cancellable runner (`RunTests` and `streamOutput`) -/

/-- `strings.HasPrefix`. -/
def strStartsWith : GoStr → GoStr → Bool
  | _, [] => true
  | [], _ :: _ => false
  | c :: cs, p :: ps => c = p && strStartsWith cs ps

/-- `strings.Contains`. -/
def strContains (sub : GoStr) : GoStr → Bool
  | [] => strStartsWith [] sub
  | c :: cs => strStartsWith (c :: cs) sub || strContains sub cs

/-- ANSI color codes from the runner source. -/
def Red : GoStr := "31;1".data

/-- Green. -/
def Green : GoStr := "32;1".data

/-- Yellow. -/
def Yellow : GoStr := "33;1".data

/-- Magenta. -/
def Magenta : GoStr := "35;1".data

/-- White. -/
def White : GoStr := "37;1".data

/-- `selectColorizer`: first match wins. -/
def selectColorizer (line : GoStr) : GoStr :=
  if strStartsWith line ("?".data) || strContains ("SKIP".data) line then Yellow
  else if strStartsWith line ("ok".data) || strContains ("PASS".data) line then Green
  else if strStartsWith line ("FAIL".data) then Red
  else if strContains (".go:".data) line then Magenta
  else White

/-- `colorizeOutput`: wrap the line in the selected color and a reset. -/
def colorizeOutput (output : GoStr) : GoStr :=
  "\x1b[".data ++ selectColorizer output ++ "m".data ++ output ++ "\x1b[0m".data

/-- `displayCommand` (`internal/display.go`): prints the literal `go`, a
space, then the given tokens joined by spaces. -/
def displayCommand (command : List GoStr) : GoStr :=
  "go ".data ++ joinSpace command

/-- The full line `RunTests` displays before executing: it passes the entire
field list of the built command to `displayCommand`. -/
def displayedLine (config : TestConfig) : GoStr :=
  displayCommand (fieldsChars config.BuildCommand)

/-- The argument vector `RunTests` executes:
`exec.CommandContext(ctx, "go", fields[1:]...)` — the literal binary `go`
followed by every built token except the first. -/
def execArgv (config : TestConfig) : List GoStr :=
  "go".data :: (fieldsChars config.BuildCommand).drop 1

/-- The ordered token list the claim describes: base command tokens, test
path, enabled boolean flags, count when positive, run pattern, skip
pattern. -/
def specTokens (tc : TestConfig) : List GoStr :=
  tc.CommandBase ++ [tc.TestPath]
    ++ (if tc.Verbose then ["-v".data] else [])
    ++ (if tc.Race then ["-race".data] else [])
    ++ (if tc.FailFast then ["-failfast".data] else [])
    ++ (if tc.Cover then ["-cover".data] else [])
    ++ (if 0 < tc.Count then ["-count=".data ++ intToDigits tc.Count] else [])
    ++ (if tc.RunPattern ≠ [] then ["-run=".data ++ tc.RunPattern] else [])
    ++ (if tc.SkipPattern ≠ [] then ["-skip=".data ++ tc.SkipPattern] else [])

/-- The two output sinks the runner drains into. -/
inductive SinkId
  | so
  | se
deriving DecidableEq, Repr

/-- Events of one `RunTests` invocation, in the order they occur on the
runner's own control path. -/
inductive REv
  | clearScr
  | display (line : GoStr)
  | outPrint (s : GoStr)
  | errPrint (s : GoStr)
  | write (sink : SinkId) (line : GoStr)
  | logErr
  | drainDone (sink : SinkId)
  | procExit (failed : Bool)
  | sendComplete
deriving DecidableEq, Repr

/-- Completion-send recognizer. -/
def REv.isComplete : REv → Bool
  | .sendComplete => true
  | _ => false

/-- The environment of one external-process run: whether the pipes and the
start succeed, the lines each stream delivers, whether each scanner ends in
a read error, and whether `cmd.Wait()` returns an error (non-zero exit). -/
structure ProcBehavior where
  stdoutPipeErr : Bool
  stderrPipeErr : Bool
  startErr : Bool
  outLines : List GoStr
  outReadErr : Bool
  errLines : List GoStr
  errReadErr : Bool
  waitErr : Bool
deriving DecidableEq, Repr

/-- `streamOutput` over one pipe: each delivered line is written to the sink
(colorized when enabled, the newline folded into the event); a scanner error
is logged and ends the drain early; `wg.Done()` runs unconditionally via
`defer`. -/
def streamEvents (sink : SinkId) (colorize : Bool) (lines : List GoStr) (readErr : Bool) :
    List REv :=
  (lines.map (fun l => REv.write sink (if colorize then colorizeOutput l else l)))
    ++ (if readErr then [REv.logErr] else [])
    ++ [REv.drainDone sink]

/-- An arbitrary interleaving of two event sequences, driven by a schedule:
`true` takes from the first sequence when it is non-empty. The two stream
drains run concurrently; the schedule stands for the scheduler's choices. -/
def interleave {α : Type} : List Bool → List α → List α → List α
  | [], xs, ys => xs ++ ys
  | true :: sch, x :: xs, ys => x :: interleave sch xs ys
  | true :: _, [], ys => ys
  | false :: sch, xs, y :: ys => y :: interleave sch xs ys
  | false :: _, xs, [] => xs

/-- `RunTests`: missing config aborts with a stderr line; otherwise clear the
screen when configured, display the command, create the pipes and start the
process (each failure printing the error and returning early, before any
completion), drain both streams concurrently, wait for both drains
(`wg.Wait()`), then for the process (`cmd.Wait()`, logging a non-nil error),
then send exactly one completion. -/
def RunTests (config? : Option TestConfig) (p : ProcBehavior) (sched : List Bool) : List REv :=
  match config? with
  | none => [REv.errPrint ("Error: config not found in context".data)]
  | some config =>
    (if config.ClearScreen then [REv.clearScr] else [])
      ++ [REv.display (displayedLine config)]
      ++ (if p.stdoutPipeErr then [REv.outPrint ("stdout pipe error".data)]
        else if p.stderrPipeErr then [REv.outPrint ("stderr pipe error".data)]
        else if p.startErr then [REv.outPrint ("start error".data)]
        else
          interleave sched
              (streamEvents SinkId.so config.Color p.outLines p.outReadErr)
              (streamEvents SinkId.se config.Color p.errLines p.errReadErr)
            ++ [REv.procExit p.waitErr]
            ++ (if p.waitErr then [REv.logErr] else [])
            ++ [REv.sendComplete])

/-! ## Remaining named values used by witnesses and counterexamples -/

/-- Stderr-print recognizer on dispatcher effects. -/
def Eff.isErrOut : Eff → Bool
  | .errOut _ => true
  | _ => false

/-- The time stamps of the qualifying events in a raw watcher input. -/
def qualTimes (raw : List (Nat × FsEvent)) : List Nat :=
  (raw.filter (fun p => watchFilter p.2)).map (fun p => p.1)

/-- An idle dispatcher over the default configuration. -/
def dIdle : DispState := { testRunning := false, config := NewTestConfig }

/-- A running dispatcher over the default configuration. -/
def dRunning : DispState := { testRunning := true, config := NewTestConfig }

/-- A configuration whose command base does not start with `go`. -/
def makeBaseConfig : TestConfig :=
  { NewTestConfig with CommandBase := ["make".data, "check".data] }

/-- A process that exits non-zero after writing one line to stdout. -/
def procFailing : ProcBehavior :=
  { stdoutPipeErr := false, stderrPipeErr := false, startErr := false
    outLines := ["FAIL\tmod\t0.1s".data], outReadErr := false
    errLines := [], errReadErr := false, waitErr := true }

/-- A process that writes only to stderr and exits zero. -/
def procStderrOnly : ProcBehavior :=
  { stdoutPipeErr := false, stderrPipeErr := false, startErr := false
    outLines := [], outReadErr := false
    errLines := ["warning".data], errReadErr := false, waitErr := false }

/-- A process that writes nothing at all; its stdout scanner errors. -/
def procSilent : ProcBehavior :=
  { stdoutPipeErr := false, stderrPipeErr := false, startErr := false
    outLines := [], outReadErr := true
    errLines := [], errReadErr := false, waitErr := false }

/-- A write to `main.go`. -/
def evGoWrite : FsEvent := { Name := "main.go".data, Op := opWrite }

/-- A write to `util.go`. -/
def evGoWrite2 : FsEvent := { Name := "util.go".data, Op := opWrite }

/-- A write to a non-`.go` file. -/
def evTxtWrite : FsEvent := { Name := "notes.txt".data, Op := opWrite }

/-! # Theorems

Shared lemmas first, then one theorem per claim (with its witness or
counterexample where required). -/

theorem spawnCount_append (a b : List Eff) :
    spawnCount (a ++ b) = spawnCount a + spawnCount b := by
  simp [spawnCount, List.countP_append]

theorem spawnCount_effsOfResult (r : HandlerResult) : spawnCount (effsOfResult r) = 0 := by
  cases r with
  | mk config outs err =>
    simp [effsOfResult, spawnCount, List.countP_append, List.countP_map]
    cases err with
    | none => simp [List.countP, Function.comp, Eff.isSpawn, List.countP_eq_zero]
    | some e => simp [List.countP, Function.comp, Eff.isSpawn, List.countP_eq_zero]

theorem gate_not_mem_effsOfResult (r : HandlerResult) (b : Bool) :
    Eff.gate b ∉ effsOfResult r := by
  simp [effsOfResult, List.mem_append, List.mem_map]
  cases r.err with
  | none => simp
  | some e => simp

theorem spawn_not_mem_effsOfResult (r : HandlerResult) :
    Eff.spawn ∉ effsOfResult r := by
  simp [effsOfResult, List.mem_append, List.mem_map]
  cases r.err with
  | none => simp
  | some e => simp

theorem getLastD_cons_eq (a b : Nat) (l : List Nat) : (b :: l).getLastD a = l.getLastD b := by
  cases l <;> rfl

theorem debounceAux_burst (i : Nat) (ts : List Nat) : ∀ t : Nat,
    burstGaps i t ts = true →
    debounceAux i (t + i) ts = [ts.getLastD t + i] := by
  induction ts with
  | nil => intro t _; simp [debounceAux]
  | cons t2 ts ih =>
    intro t h
    simp only [burstGaps, Bool.and_eq_true, decide_eq_true_eq] at h
    obtain ⟨⟨hle, hgap⟩, hrest⟩ := h
    have hlt : t2 < t + i := by omega
    rw [debounceAux, if_pos hlt, ih t2 hrest, getLastD_cons_eq]

theorem debounceSignals_burst (i : Nat) (t : Nat) (ts : List Nat)
    (h : burstGaps i t ts = true) :
    debounceSignals i (t :: ts) = [ts.getLastD t + i] := by
  simp [debounceSignals, debounceAux_burst i ts t h]

/-- C10: the clear-all-parameters handler resets the test path, verbosity,
run pattern, skip pattern, command base, race, fail-fast, count and cover
fields to their defaults and leaves `WorkingDir` and `ClearScreen`
unchanged. -/
theorem clear_resets_params_frames_workingdir_clearscreen (tc : TestConfig) :
    tc.Clear.TestPath = NewTestConfig.TestPath ∧
    tc.Clear.Verbose = NewTestConfig.Verbose ∧
    tc.Clear.RunPattern = NewTestConfig.RunPattern ∧
    tc.Clear.SkipPattern = NewTestConfig.SkipPattern ∧
    tc.Clear.CommandBase = NewTestConfig.CommandBase ∧
    tc.Clear.Race = NewTestConfig.Race ∧
    tc.Clear.FailFast = NewTestConfig.FailFast ∧
    tc.Clear.Count = NewTestConfig.Count ∧
    tc.Clear.Cover = NewTestConfig.Cover ∧
    tc.Clear.WorkingDir = tc.WorkingDir ∧
    tc.Clear.ClearScreen = tc.ClearScreen ∧
    (handleClear fsEmpty tc []).config = tc.Clear := by
  refine ⟨rfl, rfl, rfl, rfl, rfl, rfl, rfl, rfl, rfl, rfl, rfl, rfl⟩

/-- C8 (code bug): evaluating the runner's displayed and executed command.
With the default configuration the built token list is
`go test ./...`, but the displayed line is `go go test ./...` — `RunTests`
passes the full field list to `displayCommand`, which prepends another
literal `go`. With a command base not starting with `go` (here
`make check`), the executed argv replaces the base's first token with the
literal `go`: `go check ./...` instead of `make check ./...`. -/
theorem runner_display_exec_diverge_from_built_tokens :
    specTokens NewTestConfig = ["go".data, "test".data, "./...".data] ∧
    fieldsChars NewTestConfig.BuildCommand = specTokens NewTestConfig ∧
    displayedLine NewTestConfig = "go go test ./...".data ∧
    displayedLine NewTestConfig ≠ joinSpace (specTokens NewTestConfig) ∧
    specTokens makeBaseConfig = ["make".data, "check".data, "./...".data] ∧
    execArgv makeBaseConfig = ["go".data, "check".data, "./...".data] ∧
    execArgv makeBaseConfig ≠ specTokens makeBaseConfig := by
  decide

/-- C7, counterexample: the line `help` is not routed to the help channel;
its parsed command is `help`, which is not `HelpCmd` (`h`), so `ReadStdin`
sends it on the general command channel. -/
theorem help_word_goes_to_command_channel :
    readStdinRoute ("help".data) = some (Routed.cmdMsg ("help".data) []) ∧
    some (Routed.cmdMsg ("help".data) []) ≠ some Routed.help := by
  decide

/-- C7 (amended): for every non-empty input line whose first
whitespace-delimited token is `h`, the reader sends one message on the
dedicated help channel and nothing on the general command channel; a help
message never causes the dispatcher to spawn a runner and leaves the
dispatcher idle. (The alias `help` named by the claim is routed to the
command channel instead — see the counterexample.) -/
theorem help_letter_routes_to_help_channel :
    (∀ line : GoStr, (parseCommand line).1 = HelpCmd →
      readStdinRoute line = some Routed.help ∧
      ∀ c args, readStdinRoute line ≠ some (Routed.cmdMsg c args)) ∧
    (∀ (fs : FileSys) (s : DispState), s.testRunning = false →
      (dispatcherStep fs s DMsg.help).1 = s ∧
      spawnCount (dispatcherStep fs s DMsg.help).2 = 0) := by
  constructor
  · intro line h
    have hne : ¬(HelpCmd = ([] : GoStr)) := by decide
    constructor
    · simp [readStdinRoute, h, hne]
    · intro c args
      simp [readStdinRoute, h, hne]
  · intro fs s hs
    have hstep : dispatcherStep fs s DMsg.help =
        (s, effsOfResult (handleHelp fs s.config []) ++ [promptEff]) := by
      simp [dispatcherStep, hs]
    rw [hstep, spawnCount_append, spawnCount_effsOfResult]
    exact ⟨rfl, by decide⟩

/-- C7 witness: the amended theorem at the concrete line `h` and the idle
dispatcher. -/
theorem help_letter_routes_witness :
    (readStdinRoute ("h".data) = some Routed.help ∧
      ∀ c args, readStdinRoute ("h".data) ≠ some (Routed.cmdMsg c args)) ∧
    ((dispatcherStep fsEmpty dIdle DMsg.help).1 = dIdle ∧
      spawnCount (dispatcherStep fsEmpty dIdle DMsg.help).2 = 0) :=
  ⟨help_letter_routes_to_help_channel.1 ("h".data) (by decide),
   help_letter_routes_to_help_channel.2 fsEmpty dIdle (by decide)⟩

theorem spawnCount_effs_spawn (r : HandlerResult) :
    spawnCount (effsOfResult r ++ [Eff.spawn]) = 1 := by
  rw [spawnCount_append, spawnCount_effsOfResult]
  rfl

theorem spawnCount_effs_prompt (r : HandlerResult) :
    spawnCount (effsOfResult r ++ [promptEff]) = 0 := by
  rw [spawnCount_append, spawnCount_effsOfResult]
  rfl

theorem inFlightRun_invariant (fs : FileSys) :
    ∀ (msgs : List DMsg) (s : DispState) (n : Nat),
      n = (if s.testRunning then 1 else 0) →
      (inFlightRun fs (s, n) msgs).2 =
        (if (inFlightRun fs (s, n) msgs).1.testRunning then 1 else 0) := by
  intro msgs
  induction msgs with
  | nil =>
    intro s n h
    simpa [inFlightRun] using h
  | cons m ms ih =>
    intro s n h
    simp only [inFlightRun]
    apply ih
    cases hr : s.testRunning with
    | true =>
      cases m with
      | testComplete =>
        simp [dispatcherStep, hr, h, spawnCount, List.countP_cons, Eff.isSpawn, promptEff]
      | fileChange => simp [dispatcherStep, hr, h, spawnCount]
      | command c args => simp [dispatcherStep, hr, h, spawnCount]
      | help => simp [dispatcherStep, hr, h, spawnCount]
    | false =>
      cases m with
      | fileChange =>
        simp [dispatcherStep, hr, h, spawnCount, List.countP_cons, Eff.isSpawn]
      | command c args =>
        by_cases hc : c = ForceRunCmd
        · simp [dispatcherStep, hr, h, hc, spawnCount_effs_spawn]
        · simp [dispatcherStep, hr, h, hc, spawnCount_effs_prompt]
      | help =>
        simp [dispatcherStep, hr, h, spawnCount_effs_prompt]
      | testComplete => simp [dispatcherStep, hr, h, spawnCount]

/-- C1: while the dispatcher is Running, any number of file-changed, command
or help messages leaves the state (run flag and configuration) untouched and
produces no effects at all — in particular no spawned runner; and starting
idle with no run in flight, at most one run is ever in flight, whatever the
message sequence. -/
theorem running_drains_and_at_most_one_run :
    (∀ (fs : FileSys) (s : DispState) (msgs : List DMsg), s.testRunning = true →
      (∀ m ∈ msgs, m ≠ DMsg.testComplete) →
      runDisp fs s msgs = (s, [])) ∧
    (∀ (fs : FileSys) (cfg : TestConfig) (msgs : List DMsg),
      (inFlightRun fs ({ testRunning := false, config := cfg }, 0) msgs).2 ≤ 1) := by
  constructor
  · intro fs s msgs
    induction msgs with
    | nil => intro _ _; rfl
    | cons m ms ih =>
      intro hs hall
      have hstep : dispatcherStep fs s m = (s, []) := by
        cases m with
        | testComplete => exact absurd rfl (hall _ (by simp))
        | fileChange => simp [dispatcherStep, hs]
        | command c args => simp [dispatcherStep, hs]
        | help => simp [dispatcherStep, hs]
      simp [runDisp, hstep, ih hs (fun m2 hm2 => hall m2 (by simp [hm2]))]
  · intro fs cfg msgs
    have h := inFlightRun_invariant fs msgs { testRunning := false, config := cfg } 0 (by simp)
    rw [h]
    cases (inFlightRun fs ({ testRunning := false, config := cfg }, 0) msgs).1.testRunning <;>
      simp

/-- C1 witness: a running dispatcher drains a file change, a command and a
help request with no state change and no effects; and the in-flight count
stays at most one over a concrete spawn/complete sequence. -/
theorem running_drains_witness :
    runDisp fsEmpty dRunning [DMsg.fileChange, DMsg.command ("v".data) [], DMsg.help] =
      (dRunning, []) ∧
    (inFlightRun fsEmpty ({ testRunning := false, config := NewTestConfig }, 0)
      [DMsg.fileChange, DMsg.testComplete, DMsg.help]).2 ≤ 1 :=
  ⟨running_drains_and_at_most_one_run.1 fsEmpty dRunning
      [DMsg.fileChange, DMsg.command ("v".data) [], DMsg.help] (by decide) (by decide),
   running_drains_and_at_most_one_run.2 fsEmpty NewTestConfig
      [DMsg.fileChange, DMsg.testComplete, DMsg.help]⟩

theorem countP_interleave {α : Type} (p : α → Bool) :
    ∀ (sch : List Bool) (xs ys : List α),
      (interleave sch xs ys).countP p = xs.countP p + ys.countP p := by
  intro sch
  induction sch with
  | nil => intro xs ys; simp [interleave, List.countP_append]
  | cons b sch ih =>
    intro xs ys
    cases b
    · cases ys with
      | nil => simp [interleave]
      | cons y ys =>
        simp only [interleave, List.countP_cons, ih]
        omega
    · cases xs with
      | nil => simp [interleave]
      | cons x xs =>
        simp only [interleave, List.countP_cons, ih]
        omega

theorem mem_interleave {α : Type} (a : α) :
    ∀ (sch : List Bool) (xs ys : List α),
      a ∈ interleave sch xs ys ↔ a ∈ xs ∨ a ∈ ys := by
  intro sch
  induction sch with
  | nil => intro xs ys; simp [interleave]
  | cons b sch ih =>
    intro xs ys
    cases b
    · cases ys with
      | nil => simp [interleave]
      | cons y ys =>
        simp [interleave, ih]
        tauto
    · cases xs with
      | nil => simp [interleave]
      | cons x xs =>
        simp [interleave, ih]
        tauto

theorem countP_isComplete_streamEvents (sink : SinkId) (col : Bool) (lines : List GoStr)
    (rerr : Bool) : (streamEvents sink col lines rerr).countP REv.isComplete = 0 := by
  have h1 : (lines.map fun l =>
      REv.write sink (if col then colorizeOutput l else l)).countP REv.isComplete = 0 := by
    rw [List.countP_eq_zero]
    intro a ha
    rw [List.mem_map] at ha
    obtain ⟨l, _, rfl⟩ := ha
    simp [REv.isComplete]
  cases rerr <;> simp [streamEvents, List.countP_append, h1, REv.isComplete]

theorem drainDone_mem_streamEvents (sink : SinkId) (col : Bool) (lines : List GoStr)
    (rerr : Bool) : REv.drainDone sink ∈ streamEvents sink col lines rerr := by
  simp [streamEvents]

/-- C2: every invocation of `RunTests` in which the process starts (the
config is present and the pipe and start steps succeed) sends exactly one
completion message, whatever the process then does: a non-zero exit, output
only on stderr, no output at all, and stream read errors all still yield
exactly one completion. -/
theorem runner_sends_exactly_one_completion (config : TestConfig) (p : ProcBehavior)
    (sched : List Bool) (h1 : p.stdoutPipeErr = false) (h2 : p.stderrPipeErr = false)
    (h3 : p.startErr = false) :
    (RunTests (some config) p sched).countP REv.isComplete = 1 := by
  cases hc : config.ClearScreen <;> cases hw : p.waitErr <;>
    simp [RunTests, h1, h2, h3, hc, hw, List.countP_append, countP_interleave,
      countP_isComplete_streamEvents, REv.isComplete]

/-- C2 witness: the theorem at the default configuration against a process
that exits non-zero, one that writes only to stderr, and one that writes
nothing at all (with a stdout read error). -/
theorem runner_one_completion_witness :
    (RunTests (some NewTestConfig) procFailing []).countP REv.isComplete = 1 ∧
    (RunTests (some NewTestConfig) procStderrOnly []).countP REv.isComplete = 1 ∧
    (RunTests (some NewTestConfig) procSilent []).countP REv.isComplete = 1 :=
  ⟨runner_sends_exactly_one_completion NewTestConfig procFailing [] (by decide) (by decide)
      (by decide),
   runner_sends_exactly_one_completion NewTestConfig procStderrOnly [] (by decide) (by decide)
      (by decide),
   runner_sends_exactly_one_completion NewTestConfig procSilent [] (by decide) (by decide)
      (by decide)⟩

/-- C3: for every run (the process having started), the completion signal is
sent strictly after both stream drains have finished and the process has
exited, for every interleaving of the two drains: the trace ends with the
single completion event and both `drainDone`s and the `procExit` lie before
it. -/
theorem completion_after_drains_and_exit (config : TestConfig) (p : ProcBehavior)
    (sched : List Bool) (h1 : p.stdoutPipeErr = false) (h2 : p.stderrPipeErr = false)
    (h3 : p.startErr = false) :
    ∃ pre, RunTests (some config) p sched = pre ++ [REv.sendComplete] ∧
      REv.drainDone SinkId.so ∈ pre ∧ REv.drainDone SinkId.se ∈ pre ∧
      REv.procExit p.waitErr ∈ pre ∧ pre.countP REv.isComplete = 0 := by
  refine ⟨(if config.ClearScreen then [REv.clearScr] else [])
      ++ [REv.display (displayedLine config)]
      ++ interleave sched (streamEvents SinkId.so config.Color p.outLines p.outReadErr)
          (streamEvents SinkId.se config.Color p.errLines p.errReadErr)
      ++ [REv.procExit p.waitErr]
      ++ (if p.waitErr then [REv.logErr] else []), ?_, ?_, ?_, ?_, ?_⟩
  · simp [RunTests, h1, h2, h3]
  · simp [mem_interleave, drainDone_mem_streamEvents]
  · simp [mem_interleave, drainDone_mem_streamEvents]
  · simp
  · cases hc : config.ClearScreen <;> cases hw : p.waitErr <;>
      simp [hc, hw, List.countP_append, countP_interleave,
        countP_isComplete_streamEvents, REv.isComplete]

/-- C3 witness: the theorem at the default configuration and the failing
process, empty schedule. -/
theorem completion_after_drains_witness :
    ∃ pre, RunTests (some NewTestConfig) procFailing [] = pre ++ [REv.sendComplete] ∧
      REv.drainDone SinkId.so ∈ pre ∧ REv.drainDone SinkId.se ∈ pre ∧
      REv.procExit procFailing.waitErr ∈ pre ∧ pre.countP REv.isComplete = 0 :=
  completion_after_drains_and_exit NewTestConfig procFailing [] (by decide) (by decide)
    (by decide)

/-- C4: a burst of N ≥ 1 qualifying events whose inter-arrival gaps are all
smaller than the 200ms quiet period produces exactly one signal, emitted at
(hence no earlier than) one full quiet period after the last event of the
burst: the timer is reset on each event, not left running from the first. -/
theorem debounce_coalesces_burst (t : Nat) (ts : List Nat)
    (h : burstGaps quietPeriodMs t ts = true) :
    debounceSignals quietPeriodMs (t :: ts) = [ts.getLastD t + quietPeriodMs] :=
  debounceSignals_burst quietPeriodMs t ts h

/-- C4 witness: the burst at times 0, 100, 150 (gaps 100 and 50, both below
the 200ms quiet period) yields the single signal at 350 = 150 + 200. -/
theorem debounce_coalesces_burst_witness :
    debounceSignals quietPeriodMs (0 :: [100, 150]) = [[100, 150].getLastD 0 + quietPeriodMs] :=
  debounce_coalesces_burst 0 [100, 150] (by decide)

/-- C5: an event on a file without the `.go` extension or of a non-tracked
kind is dropped by the watcher's filter: removing it from the input leaves
the signal output unchanged, and when the remaining qualifying events form a
single sub-200ms burst the output is still exactly one signal. -/
theorem nonqualifying_event_no_observable_effect (l1 l2 : List (Nat × FsEvent)) (t : Nat)
    (e : FsEvent) (he : watchFilter e = false) :
    watchSignals (l1 ++ (t, e) :: l2) = watchSignals (l1 ++ l2) ∧
    (∀ t0 ts, qualTimes (l1 ++ l2) = t0 :: ts →
      burstGaps quietPeriodMs t0 ts = true →
      (watchSignals (l1 ++ (t, e) :: l2)).length = 1) := by
  have hdrop : watchSignals (l1 ++ (t, e) :: l2) = watchSignals (l1 ++ l2) := by
    simp [watchSignals, List.filter_append, List.filter_cons, he]
  refine ⟨hdrop, ?_⟩
  intro t0 ts hq hchain
  have : watchSignals (l1 ++ l2) = debounceSignals quietPeriodMs (t0 :: ts) := by
    simp [watchSignals, ← hq, qualTimes]
  rw [hdrop, this, debounceSignals_burst quietPeriodMs t0 ts hchain]
  rfl

/-- C6, counterexample: the gate-channel dispatcher sends a gate-open
(`readyChan <- true`) at startup, before its loop: in the execution that
receives no messages at all, one gate-open is sent while zero run-complete
messages have been received, so "gate-open is sent only if a run-complete
has just been received" is false. -/
theorem gate_open_sent_at_startup :
    (gateExec NewTestConfig fsEmpty []).countP Eff.isGateOpen = 1 ∧
    ([] : List DMsg).count DMsg.testComplete = 0 := by
  decide

/-- C6 (amended): within the loop of the gate-channel dispatcher, gate-open
is sent in a step if and only if that step received a run-complete message,
and gate-closed is sent if and only if a runner was spawned in that step
(the state was not Running and the message was a file change or the
force-run command) — except for one initial gate-open sent at startup,
before the loop. The no-read-while-closed property of the reader holds of
the gated reader modelled from the spec (its source is not in the
snapshot). -/
theorem gate_discipline_amended :
    (∀ (fs : FileSys) (s : DispState) (m : DMsg),
      (Eff.gate true ∈ (dispatcherGateStep fs s m).2 ↔ m = DMsg.testComplete) ∧
      (Eff.gate false ∈ (dispatcherGateStep fs s m).2 ↔
        s.testRunning = false ∧ isRunTrigger m = true) ∧
      (Eff.spawn ∈ (dispatcherGateStep fs s m).2 ↔
        s.testRunning = false ∧ isRunTrigger m = true)) ∧
    gateInitEffs = [Eff.gate true, promptEff] ∧
    (∀ (rs : ReaderState) (i : RInput), rs.gate = false →
      ∀ a ∈ (readerStep rs i).2, a.isRead = false) := by
  refine ⟨?_, rfl, ?_⟩
  · intro fs s m
    cases hr : s.testRunning with
    | false =>
      cases m with
      | fileChange => simp [dispatcherGateStep, hr, isRunTrigger, promptEff]
      | help =>
        simp [dispatcherGateStep, hr, isRunTrigger, gate_not_mem_effsOfResult,
          spawn_not_mem_effsOfResult]
      | testComplete => simp [dispatcherGateStep, hr, isRunTrigger, promptEff]
      | command c args =>
        by_cases hc : c = ForceRunCmd
        · simp [dispatcherGateStep, hr, hc, isRunTrigger, gate_not_mem_effsOfResult,
            spawn_not_mem_effsOfResult]
        · simp [dispatcherGateStep, hr, hc, isRunTrigger, gate_not_mem_effsOfResult,
            spawn_not_mem_effsOfResult]
    | true =>
      cases m with
      | fileChange => simp [dispatcherGateStep, hr, isRunTrigger]
      | help =>
        simp [dispatcherGateStep, hr, isRunTrigger, gate_not_mem_effsOfResult,
          spawn_not_mem_effsOfResult]
      | testComplete => simp [dispatcherGateStep, hr, isRunTrigger, promptEff]
      | command c args =>
        simp [dispatcherGateStep, hr, isRunTrigger, gate_not_mem_effsOfResult,
          spawn_not_mem_effsOfResult]
  · intro rs i hg a ha
    cases i with
    | gateVal b => simp [readerStep] at ha
    | lineReady s =>
      simp [readerStep, hg] at ha
      simp [ha, RAct.isRead]

/-- C6 witness: the amended theorem at a concrete completion step and at the
freshly initialized (closed) reader offered a line. -/
theorem gate_discipline_witness :
    (Eff.gate true ∈ (dispatcherGateStep fsEmpty dIdle DMsg.testComplete).2 ↔
      DMsg.testComplete = DMsg.testComplete) ∧
    (∀ a ∈ (readerStep readerInit (RInput.lineReady ("v".data))).2, a.isRead = false) :=
  ⟨(gate_discipline_amended.1 fsEmpty dIdle DMsg.testComplete).1,
   gate_discipline_amended.2.2 readerInit (RInput.lineReady ("v".data)) (by decide)⟩

/-- C9, counterexample: an invalid count value (`count abc` while idle)
leaves the configuration and state unchanged, but its error message goes to
standard output, not the error stream: the step emits zero stderr effects
while the invalid-count error line appears among its stdout effects, so
"the error is reported on the error stream" is false as stated. -/
theorem invalid_count_not_on_error_stream :
    (dispatcherStep fsEmpty dIdle (DMsg.command CountCmd [("abc").data])).1 = dIdle ∧
    (dispatcherStep fsEmpty dIdle (DMsg.command CountCmd [("abc").data])).2.countP
      Eff.isErrOut = 0 ∧
    Eff.out (("Error: invalid count value ").data ++ goQuote ("abc".data)
        ++ (" (must be a non-negative integer)").data) ∈
      (dispatcherStep fsEmpty dIdle (DMsg.command CountCmd [("abc").data])).2 := by
  decide

/-- C9 (amended): for every user-input error the configuration record is
left completely unchanged and the dispatcher loop continues in its current
(idle) state; the error is reported to the user — on the error stream for an
unknown command name and for a test path naming a non-existent path or a
non-directory, but on standard output for an invalid or negative count value
(`handleCount` prints the message itself and returns `nil`). -/
theorem user_input_errors_leave_config_unchanged :
    (∀ (fs : FileSys) (s : DispState) (c : GoStr) (args : List GoStr),
      s.testRunning = false → commandRegistry c = none →
      dispatcherStep fs s (DMsg.command c args) =
        (s, [Eff.errOut (("Error: ").data ++ ("unknown command: ").data ++ goQuote c),
          promptEff])) ∧
    (∀ (fs : FileSys) (s : DispState) (path : GoStr) (rest : List GoStr),
      s.testRunning = false → fs path = none →
      dispatcherStep fs s (DMsg.command SetPathCmd (path :: rest)) =
        (s, [Eff.errOut (("Error: ").data ++ ("path does not exist: stat error").data),
          promptEff])) ∧
    (∀ (fs : FileSys) (s : DispState) (path : GoStr) (rest : List GoStr),
      s.testRunning = false → fs path = some false →
      dispatcherStep fs s (DMsg.command SetPathCmd (path :: rest)) =
        (s, [Eff.errOut (("Error: ").data ++ ("path ").data ++ goQuote path
          ++ (" is not a directory").data), promptEff])) ∧
    (∀ (fs : FileSys) (s : DispState) (cs : GoStr) (rest : List GoStr),
      s.testRunning = false → goAtoi cs = none →
      dispatcherStep fs s (DMsg.command CountCmd (cs :: rest)) =
        (s, [Eff.out (("Error: invalid count value ").data ++ goQuote cs
          ++ (" (must be a non-negative integer)").data), promptEff])) ∧
    (∀ (fs : FileSys) (s : DispState) (cs : GoStr) (rest : List GoStr) (k : Int),
      s.testRunning = false → goAtoi cs = some k → k < 0 →
      dispatcherStep fs s (DMsg.command CountCmd (cs :: rest)) =
        (s, [Eff.out (("Error: count value must be non-negative (got ").data
          ++ intToDigits k ++ (")").data), promptEff])) := by
  refine ⟨?_, ?_, ?_, ?_, ?_⟩
  · intro fs s c args hs hreg
    obtain ⟨tr, cfg⟩ := s
    have htr : tr = false := hs
    subst htr
    have hforce : commandRegistry ForceRunCmd = some handleForceRun := rfl
    have hcf : ¬ c = ForceRunCmd := by
      intro hcf
      rw [hcf, hforce] at hreg
      exact Option.noConfusion hreg
    simp [dispatcherStep, hcf, handleCommand, hreg, effsOfResult]
  · intro fs s path rest hs hfs
    obtain ⟨tr, cfg⟩ := s
    have htr : tr = false := hs
    subst htr
    have hreg : commandRegistry SetPathCmd = some handleTestPath := rfl
    simp [dispatcherStep, show ¬(SetPathCmd = ForceRunCmd) from by decide,
      handleCommand, hreg, handleTestPath, hfs, effsOfResult]
  · intro fs s path rest hs hfs
    obtain ⟨tr, cfg⟩ := s
    have htr : tr = false := hs
    subst htr
    have hreg : commandRegistry SetPathCmd = some handleTestPath := rfl
    simp [dispatcherStep, show ¬(SetPathCmd = ForceRunCmd) from by decide,
      handleCommand, hreg, handleTestPath, hfs, effsOfResult]
  · intro fs s cs rest hs hparse
    obtain ⟨tr, cfg⟩ := s
    have htr : tr = false := hs
    subst htr
    have hreg : commandRegistry CountCmd = some handleCount := rfl
    simp [dispatcherStep, show ¬(CountCmd = ForceRunCmd) from by decide,
      handleCommand, hreg, handleCount, hparse, effsOfResult]
  · intro fs s cs rest k hs hparse hneg
    obtain ⟨tr, cfg⟩ := s
    have htr : tr = false := hs
    subst htr
    have hreg : commandRegistry CountCmd = some handleCount := rfl
    simp [dispatcherStep, show ¬(CountCmd = ForceRunCmd) from by decide,
      handleCommand, hreg, handleCount, hparse, hneg, effsOfResult]

/-- C9 witness: the amended theorem at an unknown command `bogus`, the
non-existent path `/nope`, a path that is a file rather than a directory,
the non-numeric count `abc`, and the negative count `-5`. -/
theorem user_input_errors_witness :
    dispatcherStep fsEmpty dIdle (DMsg.command ("bogus".data) []) =
      (dIdle, [Eff.errOut (("Error: ").data ++ ("unknown command: ").data
        ++ goQuote ("bogus".data)), promptEff]) ∧
    dispatcherStep fsEmpty dIdle (DMsg.command SetPathCmd [("/nope").data]) =
      (dIdle, [Eff.errOut (("Error: ").data ++ ("path does not exist: stat error").data),
        promptEff]) ∧
    dispatcherStep fsFileOnly dIdle (DMsg.command SetPathCmd [("/a/file").data]) =
      (dIdle, [Eff.errOut (("Error: ").data ++ ("path ").data ++ goQuote ("/a/file".data)
        ++ (" is not a directory").data), promptEff]) ∧
    dispatcherStep fsEmpty dIdle (DMsg.command CountCmd [("abc").data, ("zzz").data]) =
      (dIdle, [Eff.out (("Error: invalid count value ").data ++ goQuote ("abc".data)
        ++ (" (must be a non-negative integer)").data), promptEff]) ∧
    dispatcherStep fsEmpty dIdle (DMsg.command CountCmd [("-5").data]) =
      (dIdle, [Eff.out (("Error: count value must be non-negative (got ").data
        ++ intToDigits (-5) ++ (")").data), promptEff]) :=
  ⟨user_input_errors_leave_config_unchanged.1 fsEmpty dIdle ("bogus".data) [] rfl rfl,
   user_input_errors_leave_config_unchanged.2.1 fsEmpty dIdle ("/nope".data) [] rfl rfl,
   user_input_errors_leave_config_unchanged.2.2.1 fsFileOnly dIdle ("/a/file".data) [] rfl rfl,
   user_input_errors_leave_config_unchanged.2.2.2.1 fsEmpty dIdle ("abc".data)
     [("zzz").data] rfl (by decide),
   user_input_errors_leave_config_unchanged.2.2.2.2 fsEmpty dIdle ("-5".data) [] (-5) rfl
     (by decide) (by decide)⟩

/-- C5 witness: a `.txt` write at time 50 amid `.go` writes at times 0 and
100 has no effect on the output, and the burst still yields exactly one
signal. -/
theorem nonqualifying_event_witness :
    watchSignals ([(0, evGoWrite)] ++ (50, evTxtWrite) :: [(100, evGoWrite2)]) =
      watchSignals ([(0, evGoWrite)] ++ [(100, evGoWrite2)]) ∧
    (watchSignals ([(0, evGoWrite)] ++ (50, evTxtWrite) :: [(100, evGoWrite2)])).length = 1 :=
  ⟨(nonqualifying_event_no_observable_effect [(0, evGoWrite)] [(100, evGoWrite2)] 50
      evTxtWrite (by decide)).1,
   (nonqualifying_event_no_observable_effect [(0, evGoWrite)] [(100, evGoWrite2)] 50
      evTxtWrite (by decide)).2 0 [100] (by decide) (by decide)⟩
